import Mathlib

/-!
Verification of the sizing-and-selection engine of `Pump_Design.py`.

The engine has two components: a hydraulic calculator (demand → flow →
friction loss → total dynamic head → power) and a four-tier pump selector
over a catalog of pump records.  The selector and the catalog loader work
on exact rational data here; the calculator, whose formulas use the real
powers `x ** 1.852` and `x ** 4.87`, is embedded over the real numbers.
Streamlit UI plumbing, Excel I/O and PDF rendering are outside the model.
-/

namespace PumpDesign

/-- Match-quality tag returned by `select_pump`, one per `return` site
(`"exact_match"`, `"higher_hp_match"`, `"tdh_match"`, `"last_resort"`). -/
inductive MatchKind where
  | exact_match
  | higher_hp_match
  | tdh_match
  | last_resort
deriving DecidableEq, Repr

/-- One catalog row, after `load_pump_data` has normalized the column names
(`pump`, `phase`, `hp`, `qmin`, `qmax`, `hmin`, `hmax`) and coerced the five
numeric columns.  Numeric fields are modelled as exact rationals. -/
structure PumpRecord where
  pump : String
  phase : String
  hp : ℚ
  qmin : ℚ
  qmax : ℚ
  hmin : ℚ
  hmax : ℚ
deriving DecidableEq, Repr

/-- Failure of the selector.  In the Python source an empty catalog makes
`pump_data.iloc[-1]` raise; the spec names this fatal condition
`EmptyCatalogError`, and the embedding models it as an `Except` error. -/
inductive SelectError where
  | EmptyCatalogError
deriving DecidableEq, Repr

/-- The tier-1/tier-2 condition of `select_pump` (lines 128–129, 136–137):
the flow range of the record contains the required flow and its head range
contains the required TDH. -/
def flowHeadOk (p : PumpRecord) (required_flow_lph required_tdh : ℚ) : Bool :=
  decide (p.qmin ≤ required_flow_lph) && decide (required_flow_lph ≤ p.qmax) &&
    decide (p.hmin ≤ required_tdh) && decide (required_tdh ≤ p.hmax)

/-- The tier-3 condition of `select_pump` (line 144): the head range of the record
contains the required TDH; flow is ignored. -/
def headOk (p : PumpRecord) (required_tdh : ℚ) : Bool :=
  decide (p.hmin ≤ required_tdh) && decide (required_tdh ≤ p.hmax)

/-- Shallow embedding of `select_pump` (`Pump_Design.py` lines 121–148).
`pandas` boolean-mask filtering keeps row order, and `iterrows` visits rows
in order, so each tier is a `find?` over a `filter` of the catalog.  The
higher-HP scan is nested inside the `if not exact_hp_pumps.empty:` block,
exactly as in the source.  `pump_data.iloc[-1]` is `getLast?`, failing on an
empty catalog. -/
def select_pump (pump_data : List PumpRecord)
    (required_hp required_flow_lph required_tdh : ℚ) :
    Except SelectError (PumpRecord × MatchKind) :=
  let exact_hp_pumps := pump_data.filter (fun p => decide (p.hp = required_hp))
  let tier12 : Option (PumpRecord × MatchKind) :=
    if exact_hp_pumps.isEmpty then none
    else
      match exact_hp_pumps.find? (fun p => flowHeadOk p required_flow_lph required_tdh) with
      | some p => some (p, MatchKind.exact_match)
      | none =>
        let higher_hp_pumps := pump_data.filter (fun p => decide (required_hp < p.hp))
        match higher_hp_pumps.find? (fun p => flowHeadOk p required_flow_lph required_tdh) with
        | some p => some (p, MatchKind.higher_hp_match)
        | none => none
  match tier12 with
  | some res => Except.ok res
  | none =>
    let suitable_pumps := pump_data.filter (fun p => decide (required_hp ≤ p.hp))
    match suitable_pumps.find? (fun p => headOk p required_tdh) with
    | some p => Except.ok (p, MatchKind.tdh_match)
    | none =>
      match pump_data.getLast? with
      | some p => Except.ok (p, MatchKind.last_resort)
      | none => Except.error SelectError.EmptyCatalogError

/-- The sort key of `load_pump_data` (line 112,
`pump_data.sort_values` on the hp and hmax columns): ascending HP, ties broken by
ascending maximum head. -/
def pumpLe (a b : PumpRecord) : Prop :=
  a.hp < b.hp ∨ (a.hp = b.hp ∧ a.hmax ≤ b.hmax)

instance : DecidableRel pumpLe := fun a b => by
  unfold pumpLe; infer_instance

instance : IsTotal PumpRecord pumpLe := by
  constructor
  intro a b
  rcases lt_trichotomy a.hp b.hp with h | h | h
  · exact Or.inl (Or.inl h)
  · rcases le_total a.hmax b.hmax with h2 | h2
    · exact Or.inl (Or.inr ⟨h, h2⟩)
    · exact Or.inr (Or.inr ⟨h.symm, h2⟩)
  · exact Or.inr (Or.inl h)

instance : IsTrans PumpRecord pumpLe := by
  constructor
  intro a b c hab hbc
  rcases hab with h | ⟨he, hm⟩
  · rcases hbc with h2 | ⟨he2, _⟩
    · exact Or.inl (h.trans h2)
    · exact Or.inl (he2 ▸ h)
  · rcases hbc with h2 | ⟨he2, hm2⟩
    · exact Or.inl (he ▸ h2)
    · exact Or.inr ⟨he.trans he2, hm.trans hm2⟩

/-- Shallow embedding of the sorting step of `load_pump_data` (lines 111–114):
the parsed rows are sorted ascending by HP and then by maximum head before
the function returns.  Column-name aliasing, numeric coercion and the
missing-column check (which concern the Excel file, not the records) are
outside the model, so the loader is applied to already-parsed rows. -/
def load_pump_data (rows : List PumpRecord) : List PumpRecord :=
  rows.insertionSort pumpLe

/-- The Python 3 builtin `round` on an exact rational: round to the nearest
integer, ties going to the even integer. -/
def pyRound (q : ℚ) : ℤ :=
  if q - ⌊q⌋ < 1 / 2 then ⌊q⌋
  else if 1 / 2 < q - ⌊q⌋ then ⌊q⌋ + 1
  else if ⌊q⌋ % 2 = 0 then ⌊q⌋ else ⌊q⌋ + 1

/-- The power-tier rounding policy of line 216,
`hp_rounded = max(0.5, round(hp + 0.4))`, as a function of the computed `hp`
value, on exact rationals.  Line 273 passes this value to `select_pump` as
`required_hp`. -/
def hp_rounded_of (hp : ℚ) : ℚ :=
  max 0.5 ((pyRound (hp + 0.4) : ℤ) : ℚ)

/-- The validated form inputs (lines 162–180).  Numeric inputs are modelled
as exact reals; `pipe_type` is the material string from the selectbox. -/
structure SystemRequirements where
  yield_lph : ℝ
  num_taps : ℝ
  demand_per_tap : ℝ
  pumping_hours : ℝ
  installation_depth : ℝ
  tank_height : ℝ
  pumping_line_length : ℝ
  pipe_diameter_mm : ℝ
  pipe_type : String
  safety_margin : ℝ
  efficiency : ℝ
  head_per_stage : ℝ

/-- `C = C_VALUES.get(pipe_type, 140)` (lines 21 and 196): the
Hazen-Williams roughness coefficient, with 140 for PVC, 120 for GI, and the
dictionary-lookup default 140 for any other material string. -/
noncomputable def C_VALUES (pipe_type : String) : ℝ :=
  if pipe_type = "PVC" then 140 else if pipe_type = "GI" then 120 else 140

/-- `demand_liters = num_taps * demand_per_tap` (line 185). -/
noncomputable def demand_liters (r : SystemRequirements) : ℝ :=
  r.num_taps * r.demand_per_tap

/-- `flow_lph = demand_liters / pumping_hours` (line 186). -/
noncomputable def flow_lph (r : SystemRequirements) : ℝ :=
  demand_liters r / r.pumping_hours

/-- `flow_m3ps = flow_lph / 3600000` (line 187). -/
noncomputable def flow_m3ps (r : SystemRequirements) : ℝ :=
  flow_lph r / 3600000

/-- `pipe_diameter_m = pipe_diameter_mm / 1000.0` (line 195). -/
noncomputable def pipe_diameter_m (r : SystemRequirements) : ℝ :=
  r.pipe_diameter_mm / 1000

/-- Hazen-Williams friction loss (line 199), with the real powers of the
`**` operator of the source. -/
noncomputable def friction_loss (r : SystemRequirements) : ℝ :=
  10.67 * r.pumping_line_length * flow_m3ps r ^ (1.852 : ℝ) /
    (C_VALUES r.pipe_type ^ (1.852 : ℝ) * pipe_diameter_m r ^ (4.87 : ℝ))

/-- `minor_losses = 0.10 * friction_loss` (line 200). -/
noncomputable def minor_losses (r : SystemRequirements) : ℝ :=
  0.10 * friction_loss r

/-- `total_pipe_loss = friction_loss + minor_losses` (line 201). -/
noncomputable def total_pipe_loss (r : SystemRequirements) : ℝ :=
  friction_loss r + minor_losses r

/-- `pipe_area = 3.1416 * pipe_diameter_m**2 / 4` (line 204). -/
noncomputable def pipe_area (r : SystemRequirements) : ℝ :=
  3.1416 * pipe_diameter_m r ^ 2 / 4

/-- `velocity = flow_m3ps / pipe_area` (line 205). -/
noncomputable def velocity (r : SystemRequirements) : ℝ :=
  flow_m3ps r / pipe_area r

/-- `velocity_head = velocity**2 / (2 * 9.81)` (line 206). -/
noncomputable def velocity_head (r : SystemRequirements) : ℝ :=
  velocity r ^ 2 / (2 * 9.81)

/-- `static_head = installation_depth + tank_height` (line 209). -/
noncomputable def static_head (r : SystemRequirements) : ℝ :=
  r.installation_depth + r.tank_height

/-- `tdh_without_safety = static_head + total_pipe_loss + velocity_head`
(line 210). -/
noncomputable def tdh_without_safety (r : SystemRequirements) : ℝ :=
  static_head r + total_pipe_loss r + velocity_head r

/-- `safety_margin_value = (safety_margin / 100) * tdh_without_safety`
(line 211). -/
noncomputable def safety_margin_value (r : SystemRequirements) : ℝ :=
  r.safety_margin / 100 * tdh_without_safety r

/-- `tdh = tdh_without_safety + safety_margin_value` (line 212). -/
noncomputable def tdh (r : SystemRequirements) : ℝ :=
  tdh_without_safety r + safety_margin_value r

/-- `hp = (flow_m3ps * tdh * 1000 * 9.81) / (efficiency/100 * 745.7)`
(line 215). -/
noncomputable def hp (r : SystemRequirements) : ℝ :=
  flow_m3ps r * tdh r * 1000 * 9.81 / (r.efficiency / 100 * 745.7)

/-- `kw = hp * 0.7457` (line 217). -/
noncomputable def kw (r : SystemRequirements) : ℝ :=
  hp r * 0.7457

/-- `num_stages = int(tdh / head_per_stage + 0.5)` (line 220); `int()`
truncation coincides with the floor on the non-negative operands of the
validated input domain. -/
noncomputable def num_stages (r : SystemRequirements) : ℤ :=
  ⌊tdh r / r.head_per_stage + 0.5⌋

/-- The bundle of values the calculation block of lines 185–220 produces for
display, reporting and pump selection.  (The source keeps them in local
variables; the rounded power tier is the separate rational-valued policy
`hp_rounded_of`.) -/
structure HydraulicResult where
  demand_liters : ℝ
  flow_lph : ℝ
  flow_m3ps : ℝ
  friction_loss : ℝ
  minor_losses : ℝ
  total_pipe_loss : ℝ
  pipe_area : ℝ
  velocity : ℝ
  velocity_head : ℝ
  static_head : ℝ
  tdh_without_safety : ℝ
  safety_margin_value : ℝ
  tdh : ℝ
  hp : ℝ
  kw : ℝ
  num_stages : ℤ

/-- Failure of the calculator: `flow_lph > yield_lph` makes the app show a
blocking error and `st.stop()` (lines 190–192) before any further step. -/
inductive CalcError where
  | DemandExceedsYieldError
deriving DecidableEq, Repr

/-- The complete result bundle of a successful calculation run. -/
noncomputable def hydraulic (r : SystemRequirements) : HydraulicResult :=
  { demand_liters := demand_liters r
    flow_lph := flow_lph r
    flow_m3ps := flow_m3ps r
    friction_loss := friction_loss r
    minor_losses := minor_losses r
    total_pipe_loss := total_pipe_loss r
    pipe_area := pipe_area r
    velocity := velocity r
    velocity_head := velocity_head r
    static_head := static_head r
    tdh_without_safety := tdh_without_safety r
    safety_margin_value := safety_margin_value r
    tdh := tdh r
    hp := hp r
    kw := kw r
    num_stages := num_stages r }

/-- Shallow embedding of the calculation block (lines 185–220): demand and
flow are computed, the yield check of lines 190–192 aborts the run when
`flow_lph > yield_lph`, and otherwise every downstream quantity is produced.
-/
noncomputable def calculate (r : SystemRequirements) :
    Except CalcError HydraulicResult :=
  if r.yield_lph < flow_lph r then Except.error CalcError.DemandExceedsYieldError
  else Except.ok (hydraulic r)

/-- A concrete 3 HP catalog record (flow range 0–10 LPH, head range 0–5 m)
used in concrete runs below. -/
def pumpA : PumpRecord := ⟨"A", "1ph", 3, 0, 10, 0, 5⟩

/-- A concrete 5 HP catalog record (flow range 100–200 LPH, head range
10–50 m) used in concrete runs below. -/
def pumpB : PumpRecord := ⟨"B", "1ph", 5, 100, 200, 10, 50⟩

/-- Every error of `select_pump` comes from the final `iloc[-1]` lookup on an
empty catalog: an error run forces every tier to have been empty. -/
theorem eq_nil_of_select_pump_error {pump_data : List PumpRecord}
    {required_hp required_flow_lph required_tdh : ℚ} {e : SelectError}
    (h : select_pump pump_data required_hp required_flow_lph required_tdh =
      Except.error e) :
    pump_data = [] := by
  simp only [select_pump] at h
  split at h
  · simp at h
  · split at h
    · simp at h
    · split at h
      · simp at h
      · rename_i hlast
        exact List.getLast?_eq_none_iff.mp hlast

/-- C2: an empty catalog is exactly the condition under which the selector
fails, with `EmptyCatalogError` (modelling the unguarded `iloc[-1]` on an
empty frame) and no record; on any non-empty catalog no error is possible. -/
theorem selector_fails_iff_empty_catalog (pump_data : List PumpRecord)
    (required_hp required_flow_lph required_tdh : ℚ) :
    select_pump pump_data required_hp required_flow_lph required_tdh =
        Except.error SelectError.EmptyCatalogError ↔ pump_data = [] := by
  constructor
  · exact eq_nil_of_select_pump_error
  · rintro rfl
    rfl

/-- C3: on any non-empty catalog the selector terminates normally, returning
exactly one record with exactly one match tag; `last_resort` (the last
record) is the non-failing terminal case, so no run fails for lack of a
match. -/
theorem selector_total_on_nonempty_catalog (pump_data : List PumpRecord)
    (required_hp required_flow_lph required_tdh : ℚ) (h : pump_data ≠ []) :
    ∃ p k, select_pump pump_data required_hp required_flow_lph required_tdh =
      Except.ok (p, k) := by
  rcases hres : select_pump pump_data required_hp required_flow_lph required_tdh with
    e | ⟨p, k⟩
  · exact absurd (eq_nil_of_select_pump_error hres) h
  · exact ⟨p, k, rfl⟩

/-- Witness for C3: a concrete non-empty catalog, on which the theorem
produces a successful selection. -/
theorem selector_total_on_nonempty_catalog_witness :
    [pumpB] ≠ ([] : List PumpRecord) ∧
      ∃ p k, select_pump [pumpB] 3 150 30 = Except.ok (p, k) :=
  ⟨by decide, selector_total_on_nonempty_catalog [pumpB] 3 150 30 (by decide)⟩

/-- C6: whenever some record of the catalog has the required HP and both its
flow range and head range contain the requirements, the selector returns an
`exact_match` result, and no other tag can be returned on that input. -/
theorem selector_tier1_wins (pump_data : List PumpRecord)
    (required_hp required_flow_lph required_tdh : ℚ)
    (h : ∃ p ∈ pump_data, p.hp = required_hp ∧
      flowHeadOk p required_flow_lph required_tdh = true) :
    (∃ p, select_pump pump_data required_hp required_flow_lph required_tdh =
        Except.ok (p, MatchKind.exact_match)) ∧
      ∀ p k, select_pump pump_data required_hp required_flow_lph required_tdh =
        Except.ok (p, k) → k = MatchKind.exact_match := by
  obtain ⟨p, hmem, hhp, hok⟩ := h
  have hpl : p ∈ pump_data.filter (fun p => decide (p.hp = required_hp)) :=
    List.mem_filter.mpr ⟨hmem, by simp [hhp]⟩
  have hne : (pump_data.filter (fun p => decide (p.hp = required_hp))).isEmpty = false :=
    List.isEmpty_eq_false.mpr (List.ne_nil_of_mem hpl)
  have hfindSome : ((pump_data.filter (fun p => decide (p.hp = required_hp))).find?
      (fun p => flowHeadOk p required_flow_lph required_tdh)).isSome :=
    List.find?_isSome.mpr ⟨p, hpl, hok⟩
  obtain ⟨q, hq⟩ := Option.isSome_iff_exists.mp hfindSome
  have hsel : select_pump pump_data required_hp required_flow_lph required_tdh =
      Except.ok (q, MatchKind.exact_match) := by
    simp only [select_pump, hne, hq]
    rfl
  refine ⟨⟨q, hsel⟩, ?_⟩
  intro pr k hk
  have hqe := hk.symm.trans hsel
  simp only [Except.ok.injEq, Prod.mk.injEq] at hqe
  exact hqe.2

/-- Witness for C6: on a concrete catalog whose 3 HP record covers the
requirements, the selector returns `exact_match` and only `exact_match`. -/
theorem selector_tier1_wins_witness :
    (∃ p, select_pump [pumpA, pumpB] 3 5 3 =
        Except.ok (p, MatchKind.exact_match)) ∧
      ∀ p k, select_pump [pumpA, pumpB] 3 5 3 = Except.ok (p, k) →
        k = MatchKind.exact_match :=
  selector_tier1_wins [pumpA, pumpB] 3 5 3 (by decide)

/-- C1: concrete run of the higher-HP example of the spec.  With
`required_hp = 3`, no catalog record of HP 3, and a 5 HP record whose flow
and head ranges contain the requirements, the code returns that record
tagged `tdh_match`, not `higher_hp_match`: the higher-HP scan of lines
132–138 is nested inside `if not exact_hp_pumps.empty:` and is skipped
whenever no record has `HP == required_hp`. -/
theorem selector_higher_hp_tier_skipped_run :
    select_pump [pumpB] 3 150 30 = Except.ok (pumpB, MatchKind.tdh_match) ∧
      MatchKind.tdh_match ≠ MatchKind.higher_hp_match :=
  ⟨rfl, by decide⟩

/-- In a list sorted by `pumpLe`, every element is `pumpLe`-below the last
element. -/
theorem rel_getLast?_of_sorted {l : List PumpRecord}
    (hs : List.Sorted pumpLe l) {m : PumpRecord} (hm : l.getLast? = some m) :
    ∀ p ∈ l, pumpLe p m := by
  induction l with
  | nil => simp at hm
  | cons a t ih =>
    rcases List.sorted_cons.mp hs with ⟨ha, ht⟩
    cases t with
    | nil =>
      intro p hp
      simp only [List.getLast?_singleton, Option.some.injEq] at hm
      simp only [List.mem_singleton] at hp
      subst hm
      subst hp
      exact Or.inr ⟨rfl, le_refl _⟩
    | cons b u =>
      rw [List.getLast?_cons_cons] at hm
      intro p hp
      rcases List.mem_cons.mp hp with rfl | hmem
      · exact ha m (List.mem_of_getLast?_eq_some hm)
      · exact ih ht hm p hmem

/-- C10: the loader sorts the parsed rows ascending by HP and then by
maximum head before the catalog ever reaches the selector, for every input
row order; consequently the last record — the `last_resort` fallback of
`select_pump` — has maximal HP, and maximal `hmax` among records of that
HP. -/
theorem loader_sorts_catalog (rows : List PumpRecord) :
    List.Sorted pumpLe (load_pump_data rows) ∧
      ∀ m, (load_pump_data rows).getLast? = some m →
        ∀ p ∈ load_pump_data rows,
          p.hp < m.hp ∨ (p.hp = m.hp ∧ p.hmax ≤ m.hmax) := by
  have hs : List.Sorted pumpLe (load_pump_data rows) :=
    List.sorted_insertionSort pumpLe rows
  exact ⟨hs, fun m hm p hp => rel_getLast?_of_sorted hs hm p hp⟩

/-- Witness for C10: loading a concrete out-of-order pair sorts it, and the
last record dominates the other one. -/
theorem loader_sorts_catalog_witness :
    pumpA.hp < pumpB.hp ∨ (pumpA.hp = pumpB.hp ∧ pumpA.hmax ≤ pumpB.hmax) :=
  (loader_sorts_catalog [pumpB, pumpA]).2 pumpB (by decide) pumpA (by decide)

/-- The Python `round` moves a rational down by strictly less than one half,
so its value is at least `q - 1/2`. -/
theorem pyRound_half_le (q : ℚ) : q - 1 / 2 ≤ (pyRound q : ℚ) := by
  have h0 : (⌊q⌋ : ℚ) ≤ q := Int.floor_le q
  have h1 : q < ⌊q⌋ + 1 := Int.lt_floor_add_one q
  unfold pyRound
  split_ifs <;> push_cast <;> linarith

/-- C4 (amended): the rounded power tier equals `max(0.5, round(hp + 0.4))`
with the round-half-to-even `round` of Python, and `hp_rounded ≥ 0.5` for
every input; the bound `hp_rounded ≥ hp` of the claim fails (see the
counterexample), and what the policy guarantees is `hp_rounded ≥ hp - 0.1`.
-/
theorem hp_rounded_policy (hp : ℚ) :
    hp_rounded_of hp = max 0.5 ((pyRound (hp + 0.4) : ℤ) : ℚ) ∧
      0.5 ≤ hp_rounded_of hp ∧ hp - 0.1 ≤ hp_rounded_of hp := by
  refine ⟨rfl, le_max_left _ _, ?_⟩
  have h := pyRound_half_le (hp + 0.4)
  have h2 : ((pyRound (hp + 0.4) : ℤ) : ℚ) ≤ hp_rounded_of hp :=
    le_max_right _ _
  have h3 : hp + 0.4 - 1 / 2 = hp - 0.1 := by ring
  linarith

/-- C4 counterexample: at `hp = 2.05` the policy yields
`round(2.45) = 2 < 2.05`, so the rounded tier under-provisions relative to
the computed `hp` and the claimed bound `hp_rounded ≥ hp` is false. -/
theorem hp_rounded_under_hp_counterexample :
    hp_rounded_of (41 / 20) < 41 / 20 := by
  have hfloor : ⌊(41 / 20 + 0.4 : ℚ)⌋ = 2 := Int.floor_eq_iff.mpr (by norm_num)
  have hround : pyRound (41 / 20 + 0.4) = 2 := by
    unfold pyRound
    rw [hfloor]
    norm_num
  unfold hp_rounded_of
  rw [hround]
  have hc : ((2 : ℤ) : ℚ) = 2 := by norm_cast
  rw [hc, max_eq_right (by norm_num : (0.5 : ℚ) ≤ 2)]
  norm_num

/-- C9: the selector input `required_hp` produced by the rounding policy of
line 216 (passed on line 273) is either exactly `0.5` or a positive integer,
so a catalog record whose rated HP is any other fractional value — such as
`1.5` — can never satisfy the `HP == required_hp` test of the exact tier. -/
theorem required_hp_half_or_posint (hp : ℚ) :
    (hp_rounded_of hp = 0.5 ∨
        ∃ n : ℤ, 1 ≤ n ∧ hp_rounded_of hp = (n : ℚ)) ∧
      ∀ q : ℚ, q ≠ 0.5 → (∀ m : ℤ, (m : ℚ) ≠ q) → hp_rounded_of hp ≠ q := by
  have hmain : hp_rounded_of hp = 0.5 ∨
      ∃ n : ℤ, 1 ≤ n ∧ hp_rounded_of hp = (n : ℚ) := by
    rcases le_or_lt (pyRound (hp + 0.4)) 0 with h | h
    · left
      have hle : ((pyRound (hp + 0.4) : ℤ) : ℚ) ≤ 0.5 := by
        have : ((pyRound (hp + 0.4) : ℤ) : ℚ) ≤ 0 := by exact_mod_cast h
        linarith
      unfold hp_rounded_of
      exact max_eq_left hle
    · right
      refine ⟨pyRound (hp + 0.4), by omega, ?_⟩
      have hge : (0.5 : ℚ) ≤ ((pyRound (hp + 0.4) : ℤ) : ℚ) := by
        have h1 : (1 : ℚ) ≤ ((pyRound (hp + 0.4) : ℤ) : ℚ) := by exact_mod_cast h
        linarith
      unfold hp_rounded_of
      exact max_eq_right hge
  refine ⟨hmain, ?_⟩
  intro q hq hint
  rcases hmain with h | ⟨n, _, h⟩
  · rw [h]
    exact fun hc => hq hc.symm
  · rw [h]
    exact hint n

/-- Witness for C9: the policy output at `hp = 1` is not the fractional
rated HP `1.5`. -/
theorem required_hp_half_or_posint_witness : hp_rounded_of 1 ≠ 3 / 2 :=
  (required_hp_half_or_posint 1).2 (3 / 2) (by norm_num)
    (by
      intro n hn
      have h2 : ((2 * n : ℤ) : ℚ) = ((3 : ℤ) : ℚ) := by
        push_cast
        rw [hn]
        ring
      have h3 : (2 * n : ℤ) = 3 := by exact_mod_cast h2
      omega)

/-- The default form inputs (lines 162–180): yield 2000 LPH, 20 taps, 50 L
per tap, 6 pumping hours, 30 m depth, 10 m tank, 50 m line, 50 mm PVC pipe,
15 percent margin, 65 percent efficiency, 5 m per stage. -/
noncomputable def defaultRequirements : SystemRequirements :=
  ⟨2000, 20, 50, 6, 30, 10, 50, 50, "PVC", 15, 65, 5⟩

/-- C5: on validated inputs with the demanded flow within the yield, the TDH
decomposes as static head plus friction plus minor losses plus velocity head
plus the safety addition, every term is non-negative, and in particular
`tdh ≥ static_head`. -/
theorem tdh_decomposition_nonneg (r : SystemRequirements)
    (htaps : 0 < r.num_taps) (hdemand : 0 < r.demand_per_tap)
    (hhours : 0 < r.pumping_hours) (hdepth : 0 < r.installation_depth)
    (htank : 0 ≤ r.tank_height) (hlen : 0 < r.pumping_line_length)
    (hdia : 0 < r.pipe_diameter_mm) (hmargin : 0 ≤ r.safety_margin)
    (hyield : flow_lph r ≤ r.yield_lph) :
    tdh r = static_head r + friction_loss r + minor_losses r +
        velocity_head r + safety_margin_value r ∧
      0 ≤ static_head r ∧ 0 ≤ friction_loss r ∧ 0 ≤ minor_losses r ∧
      0 ≤ velocity_head r ∧ 0 ≤ safety_margin_value r ∧
      static_head r ≤ tdh r := by
  have hflow : 0 ≤ flow_m3ps r := by
    have h1 : 0 ≤ demand_liters r := (mul_pos htaps hdemand).le
    have h2 : 0 ≤ flow_lph r := div_nonneg h1 hhours.le
    exact div_nonneg h2 (by norm_num)
  have hC : 0 ≤ C_VALUES r.pipe_type := by
    unfold C_VALUES
    split_ifs <;> norm_num
  have hdm : 0 ≤ pipe_diameter_m r := div_nonneg hdia.le (by norm_num)
  have hfric : 0 ≤ friction_loss r := by
    unfold friction_loss
    apply div_nonneg
    · exact mul_nonneg (mul_nonneg (by norm_num) hlen.le)
        (Real.rpow_nonneg hflow _)
    · exact mul_nonneg (Real.rpow_nonneg hC _) (Real.rpow_nonneg hdm _)
  have hminor : 0 ≤ minor_losses r := by
    unfold minor_losses
    linarith
  have hvel : 0 ≤ velocity_head r := by
    unfold velocity_head
    positivity
  have hstat : 0 ≤ static_head r := add_nonneg hdepth.le htank
  have hbase : 0 ≤ tdh_without_safety r := by
    unfold tdh_without_safety total_pipe_loss
    linarith
  have hsafe : 0 ≤ safety_margin_value r := by
    unfold safety_margin_value
    exact mul_nonneg (div_nonneg hmargin (by norm_num)) hbase
  refine ⟨?_, hstat, hfric, hminor, hvel, hsafe, ?_⟩
  · unfold tdh tdh_without_safety total_pipe_loss
    ring
  · unfold tdh tdh_without_safety total_pipe_loss
    linarith

/-- Witness for C5: on the default inputs, whose flow 1000/6 LPH is within
the 2000 LPH yield, the TDH dominates the static head. -/
theorem tdh_decomposition_nonneg_witness :
    static_head defaultRequirements ≤ tdh defaultRequirements :=
  (tdh_decomposition_nonneg defaultRequirements
      (by norm_num [defaultRequirements]) (by norm_num [defaultRequirements])
      (by norm_num [defaultRequirements]) (by norm_num [defaultRequirements])
      (by norm_num [defaultRequirements]) (by norm_num [defaultRequirements])
      (by norm_num [defaultRequirements]) (by norm_num [defaultRequirements])
      (by norm_num [flow_lph, demand_liters, defaultRequirements])).2.2.2.2.2.2

/-- C7: the calculator fails with `DemandExceedsYieldError` exactly when
`flow_lph > yield_lph`; the failure happens at the yield check, before the
friction, TDH, power and stage steps, so no partial result exists, and when
the flow is within the yield the run succeeds with the complete result. -/
theorem demand_exceeds_yield_exactness (r : SystemRequirements) :
    (calculate r = Except.error CalcError.DemandExceedsYieldError ↔
        r.yield_lph < flow_lph r) ∧
      (flow_lph r ≤ r.yield_lph → calculate r = Except.ok (hydraulic r)) := by
  constructor
  · constructor
    · intro h
      by_contra hlt
      simp only [calculate] at h
      rw [if_neg hlt] at h
      simp at h
    · intro h
      simp only [calculate]
      rw [if_pos h]
  · intro h
    simp only [calculate]
    rw [if_neg (not_lt.mpr h)]

/-- Witness for C7: the default inputs pass the yield check and produce the
complete hydraulic result. -/
theorem demand_exceeds_yield_exactness_witness :
    calculate defaultRequirements = Except.ok (hydraulic defaultRequirements) :=
  (demand_exceeds_yield_exactness defaultRequirements).2
    (by norm_num [flow_lph, demand_liters, defaultRequirements])

/-- C8: the friction loss is the Hazen-Williams expression
`10.67 * L * flow^1.852 / (C^1.852 * d^4.87)` with `C = 140` for PVC,
`C = 120` for GI and the intentional default `C = 140` for every other
material string, and the minor losses are the fixed ten-percent allowance
`0.10 * friction`. -/
theorem friction_hazen_williams (r : SystemRequirements) :
    friction_loss r = 10.67 * r.pumping_line_length * flow_m3ps r ^ (1.852 : ℝ) /
        (C_VALUES r.pipe_type ^ (1.852 : ℝ) *
          (r.pipe_diameter_mm / 1000) ^ (4.87 : ℝ)) ∧
      C_VALUES "PVC" = 140 ∧ C_VALUES "GI" = 120 ∧
      (∀ s : String, s ≠ "PVC" → s ≠ "GI" → C_VALUES s = 140) ∧
      minor_losses r = 0.10 * friction_loss r := by
  refine ⟨rfl, ?_, ?_, ?_, rfl⟩
  · unfold C_VALUES
    rw [if_pos rfl]
  · unfold C_VALUES
    rw [if_neg (by decide), if_pos rfl]
  · intro s h1 h2
    unfold C_VALUES
    rw [if_neg h1, if_neg h2]

/-- Witness for C8: an unrecognized material string falls back to the
default coefficient 140. -/
theorem friction_hazen_williams_witness : C_VALUES "HDPE" = 140 :=
  (friction_hazen_williams defaultRequirements).2.2.2.1 "HDPE" (by decide)
    (by decide)

end PumpDesign
